import Mathlib

/-!
Verification of the arbitrage server core (routes.ts, price.ts, executor).

Shallow embedding conventions:
* JavaScript numbers are modelled over the rationals `ℚ`; every concrete
  input used in a counterexample or witness below is chosen so that the
  float/rational distinction cannot change any comparison involved.
* Stored price rows are modelled as their parsed numeric values
  (`parseFloat` of the stored string), newest first, as returned by
  `storage.getPricesByDex`.
* Settings are modelled after parsing: the `parseFloat(... ?? default)`
  reads in the handlers yield the numeric fields of `Settings`.
* Randomness (Math.random draws) is modelled by explicit parameters.
-/

namespace Arbitrage

/-- Settings consumed by the handlers, after the key-value reads and
`parseFloat` parsing in routes.ts. `thresholdMode` is the raw stored
string, compared against "percent" exactly as the code does. -/
structure Settings where
  thresholdMode : String
  maxPositionSize : ℚ
  minProfitFixed : ℚ
  minProfitPercent : ℚ
deriving DecidableEq, Repr

/-- routes.ts (execute handler, line 421): `const estimatedGasFee = 0.85 + 0.05`. -/
def estimatedGasFee : ℚ := 85/100 + 5/100

/-- routes.ts lines 423-428 (execute handler): threshold before gas.
`if (thresholdMode?.value === "percent") rawThreshold = maxPositionSize * minProfitPercent / 100
 else rawThreshold = minProfitFixed`. -/
def rawThreshold (s : Settings) : ℚ :=
  if s.thresholdMode = "percent" then s.maxPositionSize * s.minProfitPercent / 100
  else s.minProfitFixed

/-- routes.ts line 430 (execute handler): `const minProfit = rawThreshold + estimatedGasFee`. -/
def minProfit (s : Settings) : ℚ := rawThreshold s + estimatedGasFee

/-- The same minimum-profit computation with the two per-chain gas
estimates as parameters (the code hard-wires `0.85 + 0.05`; the spec
treats the two addends as the per-chain gas estimates). -/
def minProfitRequired (s : Settings) (gasA gasB : ℚ) : ℚ :=
  rawThreshold s + (gasA + gasB)

/-- routes.ts lines 229-236 (scan/all handler): the textually separate copy
of the threshold computation on the scan path. -/
def scanRawThreshold (s : Settings) : ℚ :=
  if s.thresholdMode = "percent" then s.maxPositionSize * s.minProfitPercent / 100
  else s.minProfitFixed

/-- routes.ts lines 227 and 236 (scan/all handler): gas constant and
`minProfit` as computed on the scan path. -/
def scanMinProfit (s : Settings) : ℚ := scanRawThreshold s + (85/100 + 5/100)

/-- Split a character list at every occurrence of the separator. -/
def splitChars (sep : Char) : List Char → List (List Char)
  | [] => [[]]
  | c :: rest =>
    let r := splitChars sep rest
    if c = sep then [] :: r
    else (c :: r.headD []) :: r.tail

/-- JavaScript `s.split(sep)` for a one-character separator. -/
def splitStr (sep : Char) (s : String) : List String :=
  (splitChars sep s.toList).map String.mk

/-- JavaScript `s.toLowerCase()` (the strings involved are ASCII). -/
def toLowerStr (s : String) : String :=
  String.mk (s.toList.map Char.toLower)

/-- JavaScript `s.toUpperCase()` (the strings involved are ASCII). -/
def toUpperStr (s : String) : String :=
  String.mk (s.toList.map Char.toUpper)

/-- routes.ts line 142: `tokenPair.split("_")[1].toUpperCase()`. -/
def getQuoteSymbol (tokenPair : String) : String :=
  toUpperStr ((splitStr '_' tokenPair).getD 1 "")

/-- routes.ts lines 397 and 409: base token and per-pair trading unit,
`baseToken === 'btc' ? 1 : baseToken === 'eth' ? 10 : 100`. -/
def tradingUnit (tokenPair : String) : ℚ :=
  if (splitStr '_' tokenPair).headD "" = "btc" then 1
  else if (splitStr '_' tokenPair).headD "" = "eth" then 10
  else 100

/-- routes.ts lines 217-218 (scan/all handler): `spread = Math.abs(pA - pB)`,
`estimatedProfit = spread * 0.85`. -/
def scanEstimatedProfit (pancakePrice quickswapPrice : ℚ) : ℚ :=
  |pancakePrice - quickswapPrice| * (85/100)

/-- routes.ts line 244 (scan/all handler): `profitable: estimatedProfit > minProfit`. -/
def scanProfitable (pancakePrice quickswapPrice : ℚ) (s : Settings) : Bool :=
  scanEstimatedProfit pancakePrice quickswapPrice > scanMinProfit s

/-- routes.ts lines 407-411 (execute handler): `spread = priceB - priceA`,
`feeEstimate = priceA * 0.001`,
`estimatedProfit = Math.max(0, spread * tradingUnit - feeEstimate)`. -/
def execEstimatedProfit (tokenPair : String) (priceA priceB : ℚ) : ℚ :=
  max 0 ((priceB - priceA) * tradingUnit tokenPair - priceA * (1/1000))

/-- routes.ts line 432 (execute handler): the handler proceeds past the
threshold gate exactly when `¬(estimatedProfit < minProfit)`. -/
def execProceeds (tokenPair : String) (priceA priceB : ℚ) (s : Settings) : Bool :=
  ¬ (execEstimatedProfit tokenPair priceA priceB < minProfit s)

/-- SwapResult shape shared by executor and simulation (price.ts lines
192-198): `{txHash, status: "success" | "failed", error?, gasUsed?, amountOut?}`. -/
structure SwapResult where
  txHash : String
  status : String
  error : Option String := none
  gasUsed : Option String := none
  amountOut : Option String := none
deriving DecidableEq, Repr

/-- Wallet balances as stored for one venue (shared/schema wallets table);
only the two numeric balances matter to the execute handler. -/
structure Wallet where
  baseBalance : ℚ
  quoteBalance : ℚ
deriving DecidableEq, Repr

/-- JavaScript `x.toFixed(d)` as a rounding to an integer number of
10^-d units: ECMAScript picks the integer n minimizing |n / 10^d - x|,
the larger n on a tie, applied to the absolute value after the sign is
split off — that is `round` (floor of x + 1/2) on the absolute value. -/
def toFixedUnits (d : ℕ) (q : ℚ) : ℤ := round (|q| * 10 ^ d)

/-- Numeric value of the decimal string `q.toFixed(d)` when parsed back
(`parseFloat`): q rounded to d decimal places, sign reattached. -/
def toFixedVal (d : ℕ) (q : ℚ) : ℚ :=
  if q < 0 then -((toFixedUnits d q : ℚ) / 10 ^ d)
  else (toFixedUnits d q : ℚ) / 10 ^ d

/-- Chain table of the executor (price.ts lines 337-360): router address
per supported chain id; only the fields the execute handler reads. -/
def getChainConfigRouter (chainId : ℕ) : Option String :=
  if chainId = 56 then some "0x10ED43C718714eb63d5aA57B78B54704E256024E"
  else if chainId = 137 then some "0xa5E0829CaCEd8fFDD4De3c43696c57F7D7A678ff"
  else none

/-- Swap parameters built by the execute handler (routes.ts lines 451-469);
the signer is omitted, all other fields are kept. `amountIn` is in wei. -/
structure SwapParams where
  routerAddress : String
  tokenIn : String
  tokenOut : String
  amountIn : ℕ
  slippage : ℚ
  chainId : ℕ
deriving DecidableEq, Repr

/-- routes.ts line 449: `BigInt(Math.floor(tradingUnit * 1e18))`. The
trading unit is 1, 10 or 100, so the float product and floor are exact. -/
def swapAmountIn (tokenPair : String) : ℕ :=
  (Int.floor (tradingUnit tokenPair * (10:ℚ)^18)).toNat

/-- routes.ts lines 451-459: buy-leg swap parameters — always BSC, always
USDT to BTCB at the hard-coded addresses, whatever the requested pair. -/
def swapParamsA (tokenPair : String) : SwapParams :=
  { routerAddress := (getChainConfigRouter 56).getD ""
    tokenIn := "0x55d398326f99059ff775485246999027b3197955"
    tokenOut := "0x7130d2a12b9bcbfae4f2634d864a1ee1ce3ead9c"
    amountIn := swapAmountIn tokenPair
    slippage := 1/2
    chainId := 56 }

/-- routes.ts lines 461-469: sell-leg swap parameters — always Polygon,
always WBTC to USDT at the hard-coded addresses, whatever the pair. -/
def swapParamsB (tokenPair : String) : SwapParams :=
  { routerAddress := (getChainConfigRouter 137).getD ""
    tokenIn := "0x1bfd67037b42cf73acf2047067bd4f2c47d9bfd6"
    tokenOut := "0xc2132d05d31c914a87c6611c10748aeb04b58e8f"
    amountIn := swapAmountIn tokenPair
    slippage := 1/2
    chainId := 137 }

/-- Possible responses of the POST /api/arbitrage/execute handler. -/
inductive ExecuteOutcome where
  | noPriceData
  | unsupportedChain
  | belowThreshold (minProfitValue : ℚ)
  | swapFailed (resultA resultB : SwapResult)
  | executed (resultA resultB : SwapResult) (totalProfit : ℚ)
deriving DecidableEq, Repr

/-- Observable effects of one run of the execute handler: the HTTP
outcome, how many `executeSwap` invocations (chain interactions) were
made, whether `insertArbitrageLog` ran, and the final wallet rows. -/
structure ExecuteEffects where
  outcome : ExecuteOutcome
  chainCalls : ℕ
  logAppended : Bool
  walletA : Wallet
  walletB : Wallet
deriving DecidableEq, Repr

/-- routes.ts lines 393-551, the POST /api/arbitrage/execute handler.
Inputs: the requested pair, the stored price lists of the two venues
(parsed, newest first), the parsed settings, the two `executeSwap`
results (the swaps are effectful and random, so their results enter the
model as oracle parameters), and the two wallet rows. Stages in source
order: price-data check (line 401), profit and threshold computation
(405-430), threshold gate (432), chain-config check (441-446), the two
concurrent `executeSwap` calls (472-475), failure early-return with no
log (490-501), `insertArbitrageLog` (520) and the wallet balance updates
(522-537). The updated balances are stored through
`newBaseBalance.toFixed(8)` and `newQuoteBalance.toFixed(2)` (lines
535-536), so the wallet fields below carry that storage rounding. -/
def executeArbitrage (tokenPair : String) (pancakePrices quickswapPrices : List ℚ)
    (s : Settings) (resultA resultB : SwapResult) (walletA walletB : Wallet) :
    ExecuteEffects :=
  if pancakePrices.length = 0 ∨ quickswapPrices.length = 0 then
    ⟨.noPriceData, 0, false, walletA, walletB⟩
  else if execEstimatedProfit tokenPair (pancakePrices.headD 0)
      (quickswapPrices.headD 0) < minProfit s then
    ⟨.belowThreshold (minProfit s), 0, false, walletA, walletB⟩
  else if (getChainConfigRouter 56).isNone ∨ (getChainConfigRouter 137).isNone then
    ⟨.unsupportedChain, 0, false, walletA, walletB⟩
  -- both executeSwap invocations happen from here on (Promise.all, lines 472-475)
  else if resultA.status = "failed" ∨ resultB.status = "failed" then
    ⟨.swapFailed resultA resultB, 2, false, walletA, walletB⟩
  else
    ⟨.executed resultA resultB
        (execEstimatedProfit tokenPair (pancakePrices.headD 0) (quickswapPrices.headD 0)),
     2, true,
     ⟨toFixedVal 8 (walletA.baseBalance + tradingUnit tokenPair),
      toFixedVal 2 (walletA.quoteBalance - pancakePrices.headD 0 * tradingUnit tokenPair)⟩,
     ⟨toFixedVal 8 (walletB.baseBalance - tradingUnit tokenPair),
      toFixedVal 2 (walletB.quoteBalance + quickswapPrices.headD 0 * tradingUnit tokenPair)⟩⟩

/-- Check that the first character list starts with the second. -/
def charsStartWith : List Char → List Char → Bool
  | _, [] => true
  | [], _ :: _ => false
  | a :: as, b :: bs => (a == b) && charsStartWith as bs

/-- Check that the second character list occurs contiguously in the first. -/
def charsContain : List Char → List Char → Bool
  | l, sub =>
    match l with
    | [] => sub.isEmpty
    | _ :: rest => charsStartWith l sub || charsContain rest sub

/-- JavaScript `String.prototype.includes`, substring containment. -/
def includesSub (s sub : String) : Bool :=
  charsContain s.toList sub.toList

/-- price.ts lines 303-330, the catch branch of `executeSwap` for a
thrown `Error`: lower-case the message, then first-match classification
by substring against the fixed vocabulary; a message matching none of
the five words keeps the original message (`errorMessage = error.message`). -/
def classifySwapError (msg : String) : String :=
  if includesSub (toLowerStr msg) "insufficient" then "Insufficient token balance or gas"
  else if includesSub (toLowerStr msg) "slippage" then "Slippage tolerance exceeded"
  else if includesSub (toLowerStr msg) "deadline" then "Transaction deadline exceeded"
  else if includesSub (toLowerStr msg) "pair" then "Trading pair not found"
  else if includesSub (toLowerStr msg) "allowance" then "Token allowance insufficient"
  else msg

/-- The five fixed classification outputs of price.ts lines 310-320. -/
def classificationVocab : List String :=
  ["Insufficient token balance or gas", "Slippage tolerance exceeded",
   "Transaction deadline exceeded", "Trading pair not found",
   "Token allowance insufficient"]

/-- The five substrings matched by the classifier, in match order. -/
def classificationWords : List String :=
  ["insufficient", "slippage", "deadline", "pair", "allowance"]

/-- JavaScript `String.prototype.padEnd(n, c)`. -/
def padEnd (s : String) (n : ℕ) (c : Char) : String :=
  s ++ String.mk (List.replicate (n - s.length) c)

/-- price.ts lines 396-402: the simulated failure vocabulary. -/
def simErrors : List String :=
  ["Insufficient gas fee", "Slippage tolerance exceeded",
   "Insufficient token balance", "Router contract error", "Network congestion"]

/-- price.ts lines 386-426, `simulateSwap` (the simulated strategy), with
the random draws as explicit parameters: `shouldFail` models
`Math.random() < 0.05`; `errIndex % 5` models
`Math.floor(Math.random() * errors.length)`; `hexDigits` models
`Math.random().toString(16).slice(2, 10)` (at most 8 hex digits);
`gasRand % 200000` models `Math.floor(Math.random() * 200000)`;
`outFactor` models `0.995 + Math.random() * 0.01`. The simulated delay
has no effect on the returned value and is not modelled. -/
def simulateSwap (shouldFail : Bool) (errIndex : ℕ) (hexDigits : String)
    (gasRand : ℕ) (outFactor : ℚ) (amountIn : ℕ) : SwapResult :=
  if shouldFail then
    { txHash := "", status := "failed",
      error := some (simErrors.getD (errIndex % 5) "") }
  else
    { txHash := "0x" ++ padEnd (hexDigits.take 8) 64 '0'
      status := "success"
      error := none
      gasUsed := some (toString (21000 + gasRand % 200000))
      amountOut := some (toString ((amountIn : ℚ) * outFactor)) }

/-- price.ts line 150, `getTokenPairPrice`: the unit price
`(Number(amountOut) / Number(defaultAmountIn)).toFixed(8)`, modelled as
the number of 10^-8 units reported. The two `Number` conversions and
the double division are modelled as exact rational division; at the
inputs used in the theorems below the double result is within 10^-15 of
the rational quotient, far from the rounding boundary, so the modelled
digits equal the ones the code prints. -/
def price8 (amountIn amountOut : ℕ) : ℤ :=
  toFixedUnits 8 ((amountOut : ℚ) / (amountIn : ℚ))

/-- Response shape of GET /api/arbitrage/status (routes.ts lines
322-390). The price-less early return (lines 329-338) carries no
`quoteSymbol`/`baseSymbol` fields, hence the options. -/
structure ArbitrageStatus where
  spread : String
  drift : String
  estimatedProfit : String
  profitable : Bool
  priceA : String
  priceB : String
  quoteSymbol : Option String
  baseSymbol : Option String
deriving DecidableEq, Repr

/-- Decimal formatting used to render the numeric fields of the status
response: JavaScript `q.toFixed(d)` (sign, then the rounded units of
`toFixedUnits` with a decimal point inserted d digits from the right). -/
def toFixedStr (d : ℕ) (q : ℚ) : String :=
  let n := (toFixedUnits d q).toNat
  let digits := toString n
  let digits :=
    if digits.length < d + 1 then
      String.mk (List.replicate (d + 1 - digits.length) '0') ++ digits
    else digits
  let body :=
    if d = 0 then digits
    else digits.dropRight d ++ "." ++ digits.takeRight d
  if q < 0 then "-" ++ body else body

/-- routes.ts lines 322-390, the GET /api/arbitrage/status handler on
the stored price lists (parsed, newest first) and parsed settings. When
either venue has no stored prices it answers the fixed all-zero record
(lines 329-338); otherwise it computes spread, drift, estimated profit
and the threshold verdict exactly as the execute path does, but reports
`profitable = (estimatedProfit > minProfit)`. -/
def arbitrageStatus (tokenPair : String) (pancakePrices quickswapPrices : List ℚ)
    (s : Settings) : ArbitrageStatus :=
  if pancakePrices.length = 0 ∨ quickswapPrices.length = 0 then
    { spread := "0.00", drift := "0.00", estimatedProfit := "0.00",
      profitable := false, priceA := "0.00", priceB := "0.00",
      quoteSymbol := none, baseSymbol := none }
  else
    let priceA := pancakePrices.headD 0
    let priceB := quickswapPrices.headD 0
    let spread := priceB - priceA
    let drift :=
      if pancakePrices.length > 1 then priceA - pancakePrices.getD 1 0 else 0
    let baseToken := (splitStr '_' tokenPair).headD ""
    let estimatedProfit := execEstimatedProfit tokenPair priceA priceB
    let mp := minProfit s
    { spread := toFixedStr 4 spread
      drift := toFixedStr 4 drift
      estimatedProfit := toFixedStr 2 estimatedProfit
      profitable := estimatedProfit > mp
      priceA := toFixedStr 4 priceA
      priceB := toFixedStr 4 priceB
      quoteSymbol := some (getQuoteSymbol tokenPair)
      baseSymbol := some (toUpperStr baseToken) }

/-- Helper: a string starting with the "0x" marker is never empty. -/
theorem hex_marker_append_ne_empty (s : String) : ("0x" ++ s) ≠ "" := by
  intro h
  have hlen := congrArg String.length h
  rw [String.length_append, show ("0x").length = 2 from rfl,
    show ("").length = 0 from rfl] at hlen
  omega

/-- Helper: the parsed-back value of `q.toFixed(d)` deviates from q by at
most half a unit of the d-th decimal place. -/
theorem abs_toFixedVal_sub_le (d : ℕ) (q : ℚ) :
    |toFixedVal d q - q| ≤ 1 / (2 * 10 ^ d) := by
  have hd : (0 : ℚ) < 10 ^ d := by positivity
  have hround : |(round (|q| * 10 ^ d) : ℚ) - |q| * 10 ^ d| ≤ 1 / 2 := by
    rw [abs_sub_comm]
    exact abs_sub_round (|q| * 10 ^ d)
  have key : |(round (|q| * 10 ^ d) : ℚ) / 10 ^ d - (|q|)| ≤ 1 / (2 * 10 ^ d) := by
    have hrw : (round (|q| * 10 ^ d) : ℚ) / 10 ^ d - (|q|) =
        ((round (|q| * 10 ^ d) : ℚ) - |q| * 10 ^ d) / 10 ^ d := by
      field_simp
      ring
    rw [hrw, abs_div, abs_of_pos hd, ← div_div]
    exact (div_le_div_iff_of_pos_right hd).mpr hround
  unfold toFixedVal toFixedUnits
  by_cases h : q < 0
  · rw [if_pos h]
    have hiff : -((round (|q| * 10 ^ d) : ℚ) / 10 ^ d) - q =
        -((round (|q| * 10 ^ d) : ℚ) / 10 ^ d - |q|) := by
      rw [abs_of_neg h]
      ring
    rw [hiff, abs_neg]
    exact key
  · rw [if_neg h]
    have hiff : (round (|q| * 10 ^ d) : ℚ) / 10 ^ d - q =
        (round (|q| * 10 ^ d) : ℚ) / 10 ^ d - |q| := by
      rw [abs_of_nonneg (not_lt.mp h)]
    rw [hiff]
    exact key

/-- Helper: two non-empty price lists falsify the missing-price-data test
of the execute handler. -/
theorem price_lists_present {pp qp : List ℚ} (hA : pp ≠ []) (hB : qp ≠ []) :
    ¬ (pp.length = 0 ∨ qp.length = 0) := by
  intro h
  rcases h with h | h
  · exact hA (List.length_eq_zero.mp h)
  · exact hB (List.length_eq_zero.mp h)

/-!  Claim theorems  -/

/-- C1, counterexample: a run of the execute handler that reaches the swap
stage (both `executeSwap` invocations happen, `chainCalls = 2`) with a
failed buy leg appends no arbitrage-log entry, refuting the claim that an
audit record is committed even when a leg reports failure. -/
theorem C1_counterexample :
    (executeArbitrage "btc_usdt" [100] [300] ⟨"fixed", 1000, 50, 5⟩
        ⟨"", "failed", some "Insufficient gas fee", none, none⟩
        ⟨"0xaa", "success", none, none, none⟩ ⟨5, 1000⟩ ⟨5, 1000⟩).chainCalls = 2 ∧
    (executeArbitrage "btc_usdt" [100] [300] ⟨"fixed", 1000, 50, 5⟩
        ⟨"", "failed", some "Insufficient gas fee", none, none⟩
        ⟨"0xaa", "success", none, none, none⟩ ⟨5, 1000⟩ ⟨5, 1000⟩).logAppended = false := by
  have hth : ¬ execEstimatedProfit "btc_usdt" (([100] : List ℚ).headD 0)
      (([300] : List ℚ).headD 0) < minProfit ⟨"fixed", 1000, 50, 5⟩ := by
    unfold execEstimatedProfit minProfit rawThreshold estimatedGasFee
    rw [if_neg (show ¬("fixed" : String) = "percent" by decide)]
    norm_num [show tradingUnit "btc_usdt" = (1 : ℚ) from rfl]
  unfold executeArbitrage
  rw [if_neg (by decide), if_neg hth, if_neg (by decide), if_pos (by decide)]
  exact ⟨rfl, rfl⟩

/-- C1 (amended): for every execution attempt that reaches the swap stage,
the arbitrage-log entry is appended iff both legs report success; when
either leg reports failure the handler returns an error response without
appending any record. -/
theorem C1_amended_log_iff_both_legs_succeed (tokenPair : String)
    (pancakePrices quickswapPrices : List ℚ) (s : Settings)
    (resultA resultB : SwapResult) (walletA walletB : Wallet)
    (hA : pancakePrices ≠ []) (hB : quickswapPrices ≠ [])
    (hth : ¬ execEstimatedProfit tokenPair (pancakePrices.headD 0)
        (quickswapPrices.headD 0) < minProfit s) :
    (executeArbitrage tokenPair pancakePrices quickswapPrices s
        resultA resultB walletA walletB).logAppended = true ↔
      (resultA.status ≠ "failed" ∧ resultB.status ≠ "failed") := by
  unfold executeArbitrage
  rw [if_neg (price_lists_present hA hB), if_neg hth, if_neg (by decide)]
  by_cases hfail : resultA.status = "failed" ∨ resultB.status = "failed"
  · rw [if_pos hfail]
    refine ⟨fun h => absurd h Bool.false_ne_true, fun h => ?_⟩
    rcases hfail with hf | hf
    · exact absurd hf h.1
    · exact absurd hf h.2
  · rw [if_neg hfail]
    exact ⟨fun _ => not_or.mp hfail, fun _ => rfl⟩

/-- C1 witness: at a concrete both-legs-successful run the amended
theorem yields that the log entry was appended. -/
theorem C1_amended_witness :
    (executeArbitrage "btc_usdt" [100] [300] ⟨"fixed", 1000, 50, 5⟩
        ⟨"0xaa", "success", none, none, none⟩
        ⟨"0xbb", "success", none, none, none⟩ ⟨5, 1000⟩ ⟨5, 1000⟩).logAppended = true :=
  (C1_amended_log_iff_both_legs_succeed "btc_usdt" [100] [300] ⟨"fixed", 1000, 50, 5⟩
      ⟨"0xaa", "success", none, none, none⟩ ⟨"0xbb", "success", none, none, none⟩
      ⟨5, 1000⟩ ⟨5, 1000⟩ (by decide) (by decide)
      (by
        unfold execEstimatedProfit minProfit rawThreshold estimatedGasFee
        rw [if_neg (show ¬("fixed" : String) = "percent" by decide)]
        norm_num [show tradingUnit "btc_usdt" = (1 : ℚ) from rfl])).mpr (by decide)

/-- C2: when the price data is present and the estimated profit is below
the minimum required profit, the execute handler performs zero
`executeSwap` invocations and answers with the below-threshold error;
conversely any run that performed a chain call had passed the threshold
check. -/
theorem C2_below_threshold_no_chain_io (tokenPair : String)
    (pancakePrices quickswapPrices : List ℚ) (s : Settings)
    (resultA resultB : SwapResult) (walletA walletB : Wallet)
    (hA : pancakePrices ≠ []) (hB : quickswapPrices ≠ []) :
    (execEstimatedProfit tokenPair (pancakePrices.headD 0)
        (quickswapPrices.headD 0) < minProfit s →
      (executeArbitrage tokenPair pancakePrices quickswapPrices s
          resultA resultB walletA walletB).chainCalls = 0 ∧
      (executeArbitrage tokenPair pancakePrices quickswapPrices s
          resultA resultB walletA walletB).outcome =
        ExecuteOutcome.belowThreshold (minProfit s)) ∧
    ((executeArbitrage tokenPair pancakePrices quickswapPrices s
        resultA resultB walletA walletB).chainCalls ≠ 0 →
      ¬ execEstimatedProfit tokenPair (pancakePrices.headD 0)
          (quickswapPrices.headD 0) < minProfit s) := by
  unfold executeArbitrage
  rw [if_neg (price_lists_present hA hB)]
  constructor
  · intro h
    rw [if_pos h]
    exact ⟨rfl, rfl⟩
  · intro hc h
    rw [if_pos h] at hc
    exact hc rfl

/-- C2 witness: a concrete below-threshold run makes no chain call and
returns the below-threshold outcome. -/
theorem C2_witness :
    (executeArbitrage "btc_usdt" [100] [101] ⟨"fixed", 1000, 50, 5⟩
        ⟨"0xaa", "success", none, none, none⟩ ⟨"0xbb", "success", none, none, none⟩
        ⟨5, 1000⟩ ⟨5, 1000⟩).chainCalls = 0 ∧
    (executeArbitrage "btc_usdt" [100] [101] ⟨"fixed", 1000, 50, 5⟩
        ⟨"0xaa", "success", none, none, none⟩ ⟨"0xbb", "success", none, none, none⟩
        ⟨5, 1000⟩ ⟨5, 1000⟩).outcome =
      ExecuteOutcome.belowThreshold (minProfit ⟨"fixed", 1000, 50, 5⟩) :=
  (C2_below_threshold_no_chain_io "btc_usdt" [100] [101] ⟨"fixed", 1000, 50, 5⟩
      ⟨"0xaa", "success", none, none, none⟩ ⟨"0xbb", "success", none, none, none⟩
      ⟨5, 1000⟩ ⟨5, 1000⟩ (by decide) (by decide)).1
    (by
      unfold execEstimatedProfit minProfit rawThreshold estimatedGasFee
      rw [if_neg (show ¬("fixed" : String) = "percent" by decide)]
      norm_num [show tradingUnit "btc_usdt" = (1 : ℚ) from rfl])

/-- C3, counterexample: at the same prices (100 and 200) and the same
settings, the scan path reports not profitable while the execute path
proceeds past its threshold gate — the two paths disagree, refuting the
single-source-of-truth claim. -/
theorem C3_counterexample :
    scanProfitable 100 200 ⟨"fixed", 1000, 891/10, 5⟩ = false ∧
    execProceeds "btc_usdt" 100 200 ⟨"fixed", 1000, 891/10, 5⟩ = true := by
  constructor
  · unfold scanProfitable scanEstimatedProfit scanMinProfit scanRawThreshold
    rw [if_neg (show ¬("fixed" : String) = "percent" by decide)]
    norm_num
  · unfold execProceeds execEstimatedProfit minProfit rawThreshold estimatedGasFee
    rw [if_neg (show ¬("fixed" : String) = "percent" by decide)]
    norm_num [show tradingUnit "btc_usdt" = (1 : ℚ) from rfl]

/-- C3 (amended): the scan path and the execute path compute the
minimum-profit threshold by the same formula, but they derive
estimatedProfit by different formulas (scan: absolute spread times 0.85;
execute: max 0 of signed spread times the trading unit minus 0.001 times
priceA) and gate differently (scan requires strictly greater, execute
proceeds on greater-or-equal), so their profitability verdicts can
disagree at the same prices and settings. -/
theorem C3_amended_shared_threshold_different_verdicts :
    (∀ s : Settings, scanMinProfit s = minProfit s) ∧
    (∃ (priceA priceB : ℚ) (pair : String) (s : Settings),
      scanProfitable priceA priceB s = false ∧
      execProceeds pair priceA priceB s = true) :=
  ⟨fun _ => rfl,
   ⟨100, 200, "btc_usdt", ⟨"fixed", 1000, 891/10, 5⟩,
    by
      unfold scanProfitable scanEstimatedProfit scanMinProfit scanRawThreshold
      rw [if_neg (show ¬("fixed" : String) = "percent" by decide)]
      norm_num,
    by
      unfold execProceeds execEstimatedProfit minProfit rawThreshold estimatedGasFee
      rw [if_neg (show ¬("fixed" : String) = "percent" by decide)]
      norm_num [show tradingUnit "btc_usdt" = (1 : ℚ) from rfl]⟩⟩

/-- C4: every result of the simulated swap strategy has exactly one of
the two shapes — non-empty txHash with no error and success status, or
empty txHash with an error present and failed status — for all random
draws and inputs. -/
theorem C4_simulated_result_exclusive (shouldFail : Bool) (errIndex : ℕ)
    (hexDigits : String) (gasRand : ℕ) (outFactor : ℚ) (amountIn : ℕ) :
    (((simulateSwap shouldFail errIndex hexDigits gasRand outFactor amountIn).txHash ≠ "" ∧
      (simulateSwap shouldFail errIndex hexDigits gasRand outFactor amountIn).error = none ∧
      (simulateSwap shouldFail errIndex hexDigits gasRand outFactor amountIn).status = "success") ∨
     ((simulateSwap shouldFail errIndex hexDigits gasRand outFactor amountIn).txHash = "" ∧
      (simulateSwap shouldFail errIndex hexDigits gasRand outFactor amountIn).error ≠ none ∧
      (simulateSwap shouldFail errIndex hexDigits gasRand outFactor amountIn).status = "failed")) ∧
    ¬ (((simulateSwap shouldFail errIndex hexDigits gasRand outFactor amountIn).txHash ≠ "" ∧
        (simulateSwap shouldFail errIndex hexDigits gasRand outFactor amountIn).error = none ∧
        (simulateSwap shouldFail errIndex hexDigits gasRand outFactor amountIn).status = "success") ∧
       ((simulateSwap shouldFail errIndex hexDigits gasRand outFactor amountIn).txHash = "" ∧
        (simulateSwap shouldFail errIndex hexDigits gasRand outFactor amountIn).error ≠ none ∧
        (simulateSwap shouldFail errIndex hexDigits gasRand outFactor amountIn).status = "failed")) := by
  cases shouldFail with
  | false =>
    refine ⟨Or.inl ⟨hex_marker_append_ne_empty _, rfl, rfl⟩, ?_⟩
    rintro ⟨⟨h1, -, -⟩, ⟨h2, -, -⟩⟩
    exact h1 h2
  | true =>
    refine ⟨Or.inr ⟨rfl, by simp [simulateSwap], rfl⟩, ?_⟩
    rintro ⟨⟨h1, -, -⟩, ⟨h2, -, -⟩⟩
    exact h1 h2

/-- C5, counterexample: a run whose buy leg reports success but whose
sell leg fails leaves wallet A completely unchanged — the buy-leg delta
of the claim (baseBalance increased by the trading unit) does not
happen, refuting the per-leg balance-update claim. -/
theorem C5_counterexample :
    ((executeArbitrage "eth_usdt" [100] [300] ⟨"fixed", 1000, 50, 5⟩
        ⟨"0xaa", "success", none, none, none⟩
        ⟨"", "failed", some "Network congestion", none, none⟩
        ⟨5, 1000⟩ ⟨5, 1000⟩).chainCalls = 2) ∧
    ((executeArbitrage "eth_usdt" [100] [300] ⟨"fixed", 1000, 50, 5⟩
        ⟨"0xaa", "success", none, none, none⟩
        ⟨"", "failed", some "Network congestion", none, none⟩
        ⟨5, 1000⟩ ⟨5, 1000⟩).walletA = ⟨5, 1000⟩) ∧
    ((executeArbitrage "eth_usdt" [100] [300] ⟨"fixed", 1000, 50, 5⟩
        ⟨"0xaa", "success", none, none, none⟩
        ⟨"", "failed", some "Network congestion", none, none⟩
        ⟨5, 1000⟩ ⟨5, 1000⟩).walletA.baseBalance ≠ 5 + tradingUnit "eth_usdt") := by
  have hth : ¬ execEstimatedProfit "eth_usdt" (([100] : List ℚ).headD 0)
      (([300] : List ℚ).headD 0) < minProfit ⟨"fixed", 1000, 50, 5⟩ := by
    unfold execEstimatedProfit minProfit rawThreshold estimatedGasFee
    rw [if_neg (show ¬("fixed" : String) = "percent" by decide)]
    norm_num [show tradingUnit "eth_usdt" = (10 : ℚ) from rfl]
  unfold executeArbitrage
  rw [if_neg (by decide), if_neg hth, if_neg (by decide), if_pos (by decide)]
  refine ⟨rfl, rfl, ?_⟩
  rw [show tradingUnit "eth_usdt" = (10 : ℚ) from rfl]
  norm_num

/-- C5 (amended): past the threshold gate, if both legs report success
the handler updates wallet A to baseBalance plus the trading unit stored
through toFixed(8) and quoteBalance minus priceA times the trading unit
stored through toFixed(2), and wallet B inversely at priceB — so each
stored balance is the storage-precision rounding of the exact delta,
within half a unit of the 8th decimal for base balances and half a unit
of the 2nd decimal (0.005) for quote balances, not the exact delta
itself; if either leg reports failure both wallets are left unchanged. -/
theorem C5_amended_deltas_rounded_to_storage_precision (tokenPair : String)
    (pancakePrices quickswapPrices : List ℚ) (s : Settings)
    (resultA resultB : SwapResult) (walletA walletB : Wallet)
    (hA : pancakePrices ≠ []) (hB : quickswapPrices ≠ [])
    (hth : ¬ execEstimatedProfit tokenPair (pancakePrices.headD 0)
        (quickswapPrices.headD 0) < minProfit s) :
    ((resultA.status ≠ "failed" ∧ resultB.status ≠ "failed") →
      (executeArbitrage tokenPair pancakePrices quickswapPrices s
          resultA resultB walletA walletB).walletA =
        ⟨toFixedVal 8 (walletA.baseBalance + tradingUnit tokenPair),
         toFixedVal 2 (walletA.quoteBalance -
           pancakePrices.headD 0 * tradingUnit tokenPair)⟩ ∧
      (executeArbitrage tokenPair pancakePrices quickswapPrices s
          resultA resultB walletA walletB).walletB =
        ⟨toFixedVal 8 (walletB.baseBalance - tradingUnit tokenPair),
         toFixedVal 2 (walletB.quoteBalance +
           quickswapPrices.headD 0 * tradingUnit tokenPair)⟩ ∧
      |(executeArbitrage tokenPair pancakePrices quickswapPrices s
          resultA resultB walletA walletB).walletA.baseBalance -
        (walletA.baseBalance + tradingUnit tokenPair)| ≤ 1 / (2 * 10 ^ 8) ∧
      |(executeArbitrage tokenPair pancakePrices quickswapPrices s
          resultA resultB walletA walletB).walletA.quoteBalance -
        (walletA.quoteBalance -
          pancakePrices.headD 0 * tradingUnit tokenPair)| ≤ 1 / (2 * 10 ^ 2) ∧
      |(executeArbitrage tokenPair pancakePrices quickswapPrices s
          resultA resultB walletA walletB).walletB.baseBalance -
        (walletB.baseBalance - tradingUnit tokenPair)| ≤ 1 / (2 * 10 ^ 8) ∧
      |(executeArbitrage tokenPair pancakePrices quickswapPrices s
          resultA resultB walletA walletB).walletB.quoteBalance -
        (walletB.quoteBalance +
          quickswapPrices.headD 0 * tradingUnit tokenPair)| ≤ 1 / (2 * 10 ^ 2)) ∧
    ((resultA.status = "failed" ∨ resultB.status = "failed") →
      (executeArbitrage tokenPair pancakePrices quickswapPrices s
          resultA resultB walletA walletB).walletA = walletA ∧
      (executeArbitrage tokenPair pancakePrices quickswapPrices s
          resultA resultB walletA walletB).walletB = walletB) := by
  unfold executeArbitrage
  rw [if_neg (price_lists_present hA hB), if_neg hth, if_neg (by decide)]
  constructor
  · intro hok
    rw [if_neg (by tauto)]
    exact ⟨rfl, rfl, abs_toFixedVal_sub_le 8 _, abs_toFixedVal_sub_le 2 _,
      abs_toFixedVal_sub_le 8 _, abs_toFixedVal_sub_le 2 _⟩
  · intro hfail
    rw [if_pos hfail]
    exact ⟨rfl, rfl⟩

/-- C5 witness: a concrete both-legs-successful run stores the rounded
deltas (trading unit 1 at prices 100 and 300 turns wallets (5, 1000)
into the toFixed-stored values of (6, 900) and (4, 1300)). -/
theorem C5_amended_witness :
    (executeArbitrage "btc_usdt" [100] [300] ⟨"fixed", 1000, 50, 5⟩
        ⟨"0xaa", "success", none, none, none⟩ ⟨"0xbb", "success", none, none, none⟩
        ⟨5, 1000⟩ ⟨5, 1000⟩).walletA =
      ⟨toFixedVal 8 (5 + tradingUnit "btc_usdt"),
       toFixedVal 2 (1000 - 100 * tradingUnit "btc_usdt")⟩ ∧
    (executeArbitrage "btc_usdt" [100] [300] ⟨"fixed", 1000, 50, 5⟩
        ⟨"0xaa", "success", none, none, none⟩ ⟨"0xbb", "success", none, none, none⟩
        ⟨5, 1000⟩ ⟨5, 1000⟩).walletB =
      ⟨toFixedVal 8 (5 - tradingUnit "btc_usdt"),
       toFixedVal 2 (1000 + 300 * tradingUnit "btc_usdt")⟩ :=
  let h := (C5_amended_deltas_rounded_to_storage_precision "btc_usdt" [100] [300]
      ⟨"fixed", 1000, 50, 5⟩ ⟨"0xaa", "success", none, none, none⟩
      ⟨"0xbb", "success", none, none, none⟩ ⟨5, 1000⟩ ⟨5, 1000⟩
      (by decide) (by decide)
      (by
        unfold execEstimatedProfit minProfit rawThreshold estimatedGasFee
        rw [if_neg (show ¬("fixed" : String) = "percent" by decide)]
        norm_num [show tradingUnit "btc_usdt" = (1 : ℚ) from rfl])).1 (by decide)
  ⟨h.1, h.2.1⟩

/-- C6: the minimum required profit (raw threshold plus the two
per-chain gas estimates) is monotonically non-decreasing in
minProfitFixed, minProfitPercent, maxPositionSize and in either gas
estimate, for non-negative settings. -/
theorem C6_minProfitRequired_monotone (s t : Settings) (gasA gasB gasA' gasB' : ℚ)
    (hmode : t.thresholdMode = s.thresholdMode)
    (hfix : s.minProfitFixed ≤ t.minProfitFixed)
    (hpct : s.minProfitPercent ≤ t.minProfitPercent)
    (hpos : s.maxPositionSize ≤ t.maxPositionSize)
    (hgA : gasA ≤ gasA') (hgB : gasB ≤ gasB')
    (hpct0 : 0 ≤ s.minProfitPercent) (hpos0 : 0 ≤ s.maxPositionSize) :
    minProfitRequired s gasA gasB ≤ minProfitRequired t gasA' gasB' := by
  unfold minProfitRequired rawThreshold
  rw [hmode]
  split_ifs with h
  · have hmul : s.maxPositionSize * s.minProfitPercent ≤
        t.maxPositionSize * t.minProfitPercent :=
      mul_le_mul hpos hpct hpct0 (le_trans hpos0 hpos)
    have hdiv : s.maxPositionSize * s.minProfitPercent / 100 ≤
        t.maxPositionSize * t.minProfitPercent / 100 := by linarith
    exact add_le_add hdiv (add_le_add hgA hgB)
  · exact add_le_add hfix (add_le_add hgA hgB)

/-- C6 witness: the monotonicity theorem at concrete percent-mode
settings and gas estimates. -/
theorem C6_witness :
    minProfitRequired ⟨"percent", 100, 50, 5⟩ (17/20) (1/20) ≤
      minProfitRequired ⟨"percent", 200, 60, 6⟩ 1 1 :=
  C6_minProfitRequired_monotone ⟨"percent", 100, 50, 5⟩ ⟨"percent", 200, 60, 6⟩
    (17/20) (1/20) 1 1 rfl (by norm_num) (by norm_num) (by norm_num)
    (by norm_num) (by norm_num) (by norm_num) (by norm_num)

/-- C7, counterexample: the message "Network congestion" matches none of
the five vocabulary substrings, yet the classifier returns the original
message, not any fixed Unknown value — unmatched messages are passed
through, refuting the claim that they are classified as Unknown. -/
theorem C7_counterexample :
    classifySwapError "Network congestion" = "Network congestion" ∧
    (∀ w ∈ classificationWords,
      includesSub (toLowerStr "Network congestion") w = false) ∧
    classifySwapError "Network congestion" ∉ classificationVocab ∧
    classifySwapError "Network congestion" ≠ "Unknown swap error" := by
  decide

/-- C7 (amended): the classifier maps every message, by case-insensitive
first-match substring test against the fixed vocabulary, either to one
of the five fixed classification outputs or to the original message
unchanged; when no vocabulary word occurs in the lower-cased message the
original message is returned (the fixed "Unknown swap error" text is
used only when the thrown value is not an Error object). -/
theorem C7_amended_classification (msg : String) :
    (classifySwapError msg ∈ classificationVocab ∨ classifySwapError msg = msg) ∧
    ((∀ w ∈ classificationWords, includesSub (toLowerStr msg) w = false) →
      classifySwapError msg = msg) := by
  constructor
  · unfold classifySwapError
    split_ifs <;> simp [classificationVocab]
  · intro h
    have h1 := h "insufficient" (by simp [classificationWords])
    have h2 := h "slippage" (by simp [classificationWords])
    have h3 := h "deadline" (by simp [classificationWords])
    have h4 := h "pair" (by simp [classificationWords])
    have h5 := h "allowance" (by simp [classificationWords])
    unfold classifySwapError
    simp [h1, h2, h3, h4, h5]

/-- C7 witness: a concrete unmatched message is returned unchanged. -/
theorem C7_amended_witness :
    classifySwapError "Router contract error" = "Router contract error" :=
  (C7_amended_classification "Router contract error").2 (by decide)

/-- C8, counterexample: at amountIn 3 and amountOut 2 the reported unit
price is 0.66666667 — toFixed(8) rounds to nearest instead of
truncating, differs from the truncated value, and overstates the true
quotient 2/3, refuting the truncation claim. -/
theorem C8_counterexample :
    price8 3 2 = 66666667 ∧
    price8 3 2 ≠ Int.floor (((2 : ℚ) / 3) * 10 ^ 8) ∧
    ((2 : ℚ) / 3) < (price8 3 2 : ℚ) / 10 ^ 8 := by
  have hval : price8 3 2 = 66666667 := by
    unfold price8 toFixedUnits
    rw [round_eq]
    push_cast
    rw [abs_of_nonneg (by norm_num : (0 : ℚ) ≤ 2 / 3), Int.floor_eq_iff]
    norm_num
  have hfloor : Int.floor (((2 : ℚ) / 3) * 10 ^ 8) = 66666666 := by
    rw [Int.floor_eq_iff]
    norm_num
  refine ⟨hval, ?_, ?_⟩
  · rw [hval, hfloor]
    norm_num
  · rw [hval]
    norm_num

/-- C8 (amended): the unit price is amountOut / amountIn formatted to 8
decimal places by rounding to the nearest (JavaScript toFixed), not by
truncation; the reported price differs from the true quotient by at most
half a unit in the eighth decimal place (and so can overstate it by up
to that amount). -/
theorem C8_amended_price_rounded_to_nearest (amountIn amountOut : ℕ)
    (h : 0 < amountIn) :
    |(price8 amountIn amountOut : ℚ) / 10 ^ 8 -
        (amountOut : ℚ) / (amountIn : ℚ)| ≤ 1 / (2 * 10 ^ 8) := by
  unfold price8 toFixedUnits
  set q : ℚ := (amountOut : ℚ) / (amountIn : ℚ) with hq
  have hq0 : 0 ≤ q := by positivity
  rw [abs_of_nonneg hq0]
  have hround : |(round (q * 10 ^ 8) : ℚ) - q * 10 ^ 8| ≤ 1 / 2 := by
    rw [abs_sub_comm]
    exact abs_sub_round (q * 10 ^ 8)
  have hrw : (round (q * 10 ^ 8) : ℚ) / 10 ^ 8 - q =
      ((round (q * 10 ^ 8) : ℚ) - q * 10 ^ 8) / 10 ^ 8 := by ring
  rw [hrw, abs_div, abs_of_pos (by norm_num : (0 : ℚ) < 10 ^ 8)]
  calc |(round (q * 10 ^ 8) : ℚ) - q * 10 ^ 8| / 10 ^ 8
      ≤ (1 / 2) / 10 ^ 8 := by linarith
    _ = 1 / (2 * 10 ^ 8) := by norm_num

/-- C8 witness: the rounding bound at amountIn 4, amountOut 1. -/
theorem C8_amended_witness :
    |(price8 4 1 : ℚ) / 10 ^ 8 - ((1 : ℕ) : ℚ) / ((4 : ℕ) : ℚ)| ≤ 1 / (2 * 10 ^ 8) :=
  C8_amended_price_rounded_to_nearest 4 1 (by norm_num)

/-- C9: for every requested token pair the execute handler builds both
swap requests from the same fixed token addresses (buy leg: BSC USDT to
BTCB; sell leg: Polygon WBTC to USDT) and gives both legs the identical
amountIn of tradingUnit times 10^18 wei. -/
theorem C9_fixed_addresses_same_amount (tokenPair : String) :
    (swapParamsA tokenPair).tokenIn = "0x55d398326f99059ff775485246999027b3197955" ∧
    (swapParamsA tokenPair).tokenOut = "0x7130d2a12b9bcbfae4f2634d864a1ee1ce3ead9c" ∧
    (swapParamsA tokenPair).chainId = 56 ∧
    (swapParamsB tokenPair).tokenIn = "0x1bfd67037b42cf73acf2047067bd4f2c47d9bfd6" ∧
    (swapParamsB tokenPair).tokenOut = "0xc2132d05d31c914a87c6611c10748aeb04b58e8f" ∧
    (swapParamsB tokenPair).chainId = 137 ∧
    (swapParamsA tokenPair).amountIn = (swapParamsB tokenPair).amountIn ∧
    ((swapParamsA tokenPair).amountIn : ℚ) = tradingUnit tokenPair * 10 ^ 18 := by
  refine ⟨rfl, rfl, rfl, rfl, rfl, rfl, rfl, ?_⟩
  show ((swapAmountIn tokenPair : ℕ) : ℚ) = tradingUnit tokenPair * 10 ^ 18
  unfold swapAmountIn tradingUnit
  split_ifs <;>
    norm_num [show Int.toNat 1000000000000000000 = 1000000000000000000 from rfl,
      show Int.toNat 10000000000000000000 = 10000000000000000000 from rfl,
      show Int.toNat 100000000000000000000 = 100000000000000000000 from rfl]

/-- C10: whenever either venue has no stored prices, the arbitrage-status
handler answers the fixed well-formed record with all-zero strings and
profitable false instead of failing. -/
theorem C10_status_zero_response_when_prices_missing (tokenPair : String)
    (pancakePrices quickswapPrices : List ℚ) (s : Settings)
    (h : pancakePrices.length = 0 ∨ quickswapPrices.length = 0) :
    arbitrageStatus tokenPair pancakePrices quickswapPrices s =
      { spread := "0.00", drift := "0.00", estimatedProfit := "0.00",
        profitable := false, priceA := "0.00", priceB := "0.00",
        quoteSymbol := none, baseSymbol := none } := by
  unfold arbitrageStatus
  rw [if_pos h]

/-- C10 witness: a concrete query with no stored pancake prices yields
the all-zero record. -/
theorem C10_witness :
    arbitrageStatus "btc_usdt" [] [(300 : ℚ)] ⟨"fixed", 1000, 50, 5⟩ =
      { spread := "0.00", drift := "0.00", estimatedProfit := "0.00",
        profitable := false, priceA := "0.00", priceB := "0.00",
        quoteSymbol := none, baseSymbol := none } :=
  C10_status_zero_response_when_prices_missing "btc_usdt" [] [(300 : ℚ)]
    ⟨"fixed", 1000, 50, 5⟩ (by decide)

end Arbitrage
